import Mathlib

/-!
# Verification of the oo-editors conversion/caching pipeline and save round-trip

A shallow embedding of the local HTTP facade's core (the `/api/convert` and
`/api/save` handlers of the Express server, together with the helper functions
of `server-utils.js`) and proofs of the specification's claims about it.

The filesystem is modelled as an explicit state (a finite map from path
strings to file data plus a set of existing directories); the external `x2t`
converter process is modelled by its observable interface: its exit status,
its captured stderr, and the write it may perform on the declared destination
artifact.  Node's `child_process` event delivery (`'error'` / `'close'`) is
modelled explicitly, since the handlers' cleanup lives in `'close'` callbacks.
-/

namespace OOEditors

/-- Bytes of a file or request body, one `Nat` per byte. -/
abbrev ByteSeq := List Nat

/-- Data stored for a file: its content bytes and its modification time
(`mtimeMs` in the source, modelled as a `Nat`). -/
structure FileData where
  content : ByteSeq
  mtime : Nat
deriving DecidableEq, Repr

/-- The filesystem state: existing directories and regular files. -/
structure FS where
  dirs : List String
  files : List (String × FileData)
deriving DecidableEq, Repr

/-- Look up a regular file (newest write shadows older entries). -/
def FS.lookup (fs : FS) (p : String) : Option FileData :=
  fs.files.lookup p

/-- `fs.existsSync(p)`: true when `p` is a regular file or a directory. -/
def FS.existsPath (fs : FS) (p : String) : Bool :=
  (fs.lookup p).isSome || fs.dirs.contains p

/-- `fs.statSync(p).mtimeMs`, defined for regular files. -/
def FS.statMtime (fs : FS) (p : String) : Option Nat :=
  (fs.lookup p).map FileData.mtime

/-- Unconditional file write, used for the observable effect of the external
converter process on its destination path. -/
def FS.forceWrite (fs : FS) (p : String) (fd : FileData) : FS :=
  { fs with files := (p, fd) :: fs.files }

/-- `fs.unlinkSync(p)`: remove the regular file `p`. -/
def FS.unlink (fs : FS) (p : String) : FS :=
  { fs with files := fs.files.filter (fun e => e.1 != p) }

/-- Characters of a path, in order. -/
def pathChars (p : String) : List Char := p.toList

/-- `path.join(a, b)` for the flat joins the server performs. -/
def joinP (a b : String) : String := a ++ "/" ++ b

/-- Chars strictly before the last `'/'` of the list, or `none` when the list
contains no `'/'`.  Helper for `dirname`/`basename`. -/
def beforeLastSlash : List Char → Option (List Char)
  | [] => none
  | c :: rest =>
    match beforeLastSlash rest with
    | some tail => some (c :: tail)
    | none => if c = '/' then some [] else none

/-- Chars strictly after the last `'/'` of the list (the whole list when there
is no `'/'`).  Helper for `basename`/`extname`. -/
def afterLastSlash : List Char → List Char
  | [] => []
  | c :: rest =>
    match beforeLastSlash rest with
    | some _ => afterLastSlash rest
    | none => if c = '/' then rest else c :: rest

/-- `path.dirname`: everything before the last separator (`"."` for a bare
name, `"/"` when the last separator is the leading one). -/
def dirname (p : String) : String :=
  match beforeLastSlash p.toList with
  | none => "."
  | some [] => "/"
  | some cs => String.mk cs

/-- `path.basename`: everything after the last separator. -/
def basename (p : String) : String :=
  String.mk (afterLastSlash p.toList)

/-- Split a char list at its last `'.'`: `(before, from-dot-inclusive)`. -/
def lastDotSplit : List Char → Option (List Char × List Char)
  | [] => none
  | c :: rest =>
    match lastDotSplit rest with
    | some (pre, post) => some (c :: pre, post)
    | none => if c = '.' then some ([], c :: rest) else none

/-- `path.extname`: the extension of the basename from its last dot
(inclusive), empty when there is no dot or the dot is the leading char. -/
def extname (p : String) : String :=
  match lastDotSplit (afterLastSlash p.toList) with
  | some ([], _) => ""
  | some (_, post) => String.mk post
  | none => ""

/-- All the directories `fs.mkdirSync(p, { recursive: true })` creates:
`p` together with its ancestors (fuel-bounded walk up `dirname`). -/
def selfAndAncestors : Nat → String → List String
  | 0, p => [p]
  | n + 1, p =>
    let d := dirname p
    if d = p then [p] else p :: selfAndAncestors n d

/-- `fs.mkdirSync(p, { recursive: true })`. -/
def FS.mkdirRec (fs : FS) (p : String) : FS :=
  { fs with dirs := selfAndAncestors (p.length + 2) p ++ fs.dirs }

/-- Modelled from the spec: `isAbsolutePath` of `server-utils.js`, which is
absent from `src/` (only its tests and callers are present).  Per the spec's
preconditions and the test corpus, it recognizes POSIX absolute paths
(leading `/`) and Windows drive-letter paths such as `C:\...`. -/
def isAbsolutePath (p : String) : Bool :=
  match p.toList with
  | '/' :: _ => true
  | c :: ':' :: '\\' :: _ => c.isAlpha
  | _ => false

/-- Modelled from the spec: `isXLSXSignature` of `server-utils.js`, which is
absent from `src/`.  Per the spec, a payload is classified as already-native
exactly when it has at least 4 bytes and begins with the ZIP signature bytes
`50 4B 03 04`; a null/undefined or shorter payload never matches. -/
def isXLSXSignature : Option ByteSeq → Bool
  | none => false
  | some bs =>
    match bs with
    | b0 :: b1 :: b2 :: b3 :: _ =>
      b0 == 0x50 && b1 == 0x4B && b2 == 0x03 && b3 == 0x04
    | _ => false

/-- JS `String.prototype.toLowerCase` on one char, for the basic latin
range the handlers deal in. -/
def lowerChar (c : Char) : Char :=
  if 65 ≤ c.toNat ∧ c.toNat ≤ 90 then Char.ofNat (c.toNat + 32) else c

/-- JS `String.prototype.toLowerCase` (basic latin range). -/
def lowerStr (s : String) : String := String.mk (s.toList.map lowerChar)

/-- A target-format record of the Format Registry: converter format code and
canonical display name. -/
structure FormatInfo where
  code : Nat
  name : String
deriving DecidableEq, Repr

/-- Lowercase an extension and strip one leading dot, the Format Registry's
input normalization ("case-insensitive, with or without leading dot"). -/
def normalizeExt (ext : String) : String :=
  let l := lowerStr ext
  match l.toList with
  | '.' :: rest => String.mk rest
  | _ => l

/-- Modelled from the spec: the Format Registry's lookup table — extension
families map many-to-one onto canonical targets (word-processor -> 65/DOCX,
presentation -> 129/PPTX, spreadsheet -> 257/XLSX, delimiter text ->
260/CSV). -/
def formatTable : List (String × FormatInfo) :=
  [("doc", ⟨65, "DOCX"⟩), ("docx", ⟨65, "DOCX"⟩), ("odt", ⟨65, "DOCX"⟩),
   ("txt", ⟨65, "DOCX"⟩), ("rtf", ⟨65, "DOCX"⟩), ("html", ⟨65, "DOCX"⟩),
   ("ppt", ⟨129, "PPTX"⟩), ("pptx", ⟨129, "PPTX"⟩), ("odp", ⟨129, "PPTX"⟩),
   ("xls", ⟨257, "XLSX"⟩), ("xlsx", ⟨257, "XLSX"⟩), ("ods", ⟨257, "XLSX"⟩),
   ("csv", ⟨260, "CSV"⟩)]

/-- Modelled from the spec: `getOutputFormatInfo` of `server-utils.js`, which
is absent from `src/` (only its tests and callers are present).  A pure
lookup over the normalized extension; anything outside the table yields the
not-found sentinel, and the function never throws (it is total). -/
def getOutputFormatInfo (ext : String) : Option FormatInfo :=
  formatTable.lookup (normalizeExt ext)

/-- The supported extension families of the Format Registry, normalized. -/
def supportedExts : List String := formatTable.map Prod.fst

/-- JS `String.prototype.toUpperCase` on one char (basic latin range); used
to build case-variant test inputs. -/
def upperChar (c : Char) : Char :=
  if 97 ≤ c.toNat ∧ c.toNat ≤ 122 then Char.ofNat (c.toNat - 32) else c

/-- JS `String.prototype.toUpperCase` (basic latin range). -/
def upperStr (s : String) : String := String.mk (s.toList.map upperChar)

/-- All four dot/case variants of an extension resolve to the same canonical
record. -/
def familyOk (fi : FormatInfo) (e : String) : Bool :=
  getOutputFormatInfo e == some fi &&
  getOutputFormatInfo ("." ++ e) == some fi &&
  getOutputFormatInfo (upperStr e) == some fi &&
  getOutputFormatInfo ("." ++ upperStr e) == some fi

/-- One lane of the path digest: a deterministic byte (< 256 by construction)
mixed from the path's characters. -/
def digestLane (p : String) (i : Nat) : Nat :=
  p.toList.foldl (fun a c => (a * 131 + c.toNat + i * 17) % 256) ((i * 31 + 7) % 256)

/-- Modelled from the spec: the digest underlying `generateFileHash` of
`server-utils.js`, which is absent from `src/`.  The spec pins only the
shape — a deterministic 16-byte digest computed from the path string alone —
so the concrete hash (MD5 in the real code) is modelled by an executable
stand-in of the same shape. -/
def digest16 (p : String) : List Nat :=
  (List.range 16).map (digestLane p)

/-- Lowercase hex digit for a nibble. -/
def hexDigit (n : Nat) : Char :=
  if n = 0 then '0' else if n = 1 then '1' else if n = 2 then '2'
  else if n = 3 then '3' else if n = 4 then '4' else if n = 5 then '5'
  else if n = 6 then '6' else if n = 7 then '7' else if n = 8 then '8'
  else if n = 9 then '9' else if n = 10 then 'a' else if n = 11 then 'b'
  else if n = 12 then 'c' else if n = 13 then 'd' else if n = 14 then 'e'
  else 'f'

/-- Two lowercase hex chars for a byte. -/
def byteHex (b : Nat) : List Char := [hexDigit (b / 16), hexDigit (b % 16)]

/-- Modelled from the spec: `generateFileHash` — the 16-byte digest of the
path string rendered as 32 lowercase hexadecimal characters. -/
def generateFileHash (p : String) : String :=
  String.mk ((digest16 p).flatMap byteHex)

/-- Is `c` a lowercase hexadecimal digit? -/
def isLowerHexDigit (c : Char) : Bool :=
  (48 ≤ c.toNat && c.toNat ≤ 57) || (97 ≤ c.toNat && c.toNat ≤ 102)

/-! ## Converter job descriptors (the x2t XML configs) -/

/-- The CSV-specific snippet the templates insert for `.csv` targets: fixed
UTF-8 encoding code 46 and comma delimiter code 4. -/
def csvFields : String :=
  "\n<m_nCsvTxtEncoding>46</m_nCsvTxtEncoding>\n<m_nCsvDelimiter>4</m_nCsvDelimiter>"

/-- The run of the `/api/convert` template literal before the CSV
conditional (source lines 355-361). -/
def convertXmlPre (inputPath outputPath filename : String) : String :=
  "<?xml version=\"1.0\" encoding=\"utf-8\"?>\n<TaskQueueDataConvert xmlns:xsi=\"http://www.w3.org/2001/XMLSchema-instance\" xmlns:xsd=\"http://www.w3.org/2001/XMLSchema\">\n<m_sKey>api_conversion</m_sKey>\n<m_sFileFrom>"
    ++ inputPath ++ "</m_sFileFrom>\n<m_sFileTo>" ++ outputPath
    ++ "</m_sFileTo>\n<m_sTitle>" ++ filename
    ++ "</m_sTitle>\n<m_nFormatTo>8192</m_nFormatTo>"

/-- The shared tail of both templates after the CSV conditional (source
lines 362-379 and 767-784). -/
def xmlPost (fontDir themeDir timestamp : String) : String :=
  "\n<m_bPaid xsi:nil=\"true\" />\n<m_bEmbeddedFonts xsi:nil=\"true\" />\n<m_bFromChanges>false</m_bFromChanges>\n<m_sFontDir>"
    ++ fontDir ++ "</m_sFontDir>\n<m_sThemeDir>" ++ themeDir
    ++ "</m_sThemeDir>\n<m_sJsonParams>\x7b\x7d</m_sJsonParams>\n<m_nLcid xsi:nil=\"true\" />\n<m_oTimestamp>"
    ++ timestamp
    ++ "</m_oTimestamp>\n<m_bIsNoBase64 xsi:nil=\"true\" />\n<m_sConvertToOrigin xsi:nil=\"true\" />\n<m_oInputLimits>\n</m_oInputLimits>\n<options>\n<allowNetworkRequest>false</allowNetworkRequest>\n<allowPrivateIP>true</allowPrivateIP>\n</options>\n</TaskQueueDataConvert>\n"

/-- The x2t job descriptor built by `/api/convert`: fixed target format 8192
(the intermediate binary), CSV fields inserted exactly when the source
filename's extension is `.csv`. -/
def convertXmlConfig (inputPath outputPath filename fontDir themeDir timestamp : String) :
    String :=
  convertXmlPre inputPath outputPath filename
    ++ (if lowerStr (extname filename) == ".csv" then csvFields else "")
    ++ xmlPost fontDir themeDir timestamp

/-- The run of the `/api/save` template literal before the CSV conditional
(source lines 759-766): source format fixed to 8192, target format from the
Format Registry. -/
def saveXmlPre (changesBinPath outputPath filename : String) (formatTo : Nat) : String :=
  "<?xml version=\"1.0\" encoding=\"utf-8\"?>\n<TaskQueueDataConvert xmlns:xsi=\"http://www.w3.org/2001/XMLSchema-instance\" xmlns:xsd=\"http://www.w3.org/2001/XMLSchema\">\n<m_sKey>api_save</m_sKey>\n<m_sFileFrom>"
    ++ changesBinPath ++ "</m_sFileFrom>\n<m_nFormatFrom>8192</m_nFormatFrom>\n<m_sFileTo>"
    ++ outputPath ++ "</m_sFileTo>\n<m_sTitle>" ++ filename
    ++ "</m_sTitle>\n<m_nFormatTo>" ++ toString formatTo ++ "</m_nFormatTo>"

/-- The x2t job descriptor built by `/api/save`'s conversion branch: CSV
fields inserted exactly when the resolved target extension `ext` is `.csv`. -/
def saveXmlConfig (changesBinPath outputPath filename : String) (formatTo : Nat)
    (ext fontDir themeDir timestamp : String) : String :=
  saveXmlPre changesBinPath outputPath filename formatTo
    ++ (if ext == ".csv" then csvFields else "")
    ++ xmlPost fontDir themeDir timestamp

/-- Encode a descriptor string as file content bytes. -/
def strBytes (s : String) : ByteSeq := s.toList.map Char.toNat

/-! ## The external converter process and Node's event delivery -/

/-- Outcome of attempting to run the external x2t process: either the child
could not be started at all, or it ran and exited with a code. -/
inductive ProcOutcome
  | spawnError
  | exited (code : Int)
deriving DecidableEq, Repr

/-- Node `child_process` event delivery.  When the child cannot be spawned,
`'error'` is emitted first and `'close'` then fires with a `null` exit code;
an `'error'` event with no registered listener is an uncaught exception, so
the `'close'` callback never runs.  `none` = unhandled fault; `some c` =
`'close'` delivered with exit code `c` (`none` inside = JS `null`). -/
def closeCode (hasErrorListener : Bool) : ProcOutcome → Option (Option Int)
  | ProcOutcome.spawnError => if hasErrorListener then some none else none
  | ProcOutcome.exited c => some (some c)

/-- `/api/convert` registers x2t handlers only for stdout/stderr `'data'` and
`'close'` (source lines 395-457): it has no `'error'` listener. -/
def convertHasErrorListener : Bool := false

/-- `/api/save` registers an `'error'` handler (source line 794) in addition
to stdout/stderr `'data'` and `'close'`. -/
def saveHasErrorListener : Bool := true

/-- The observable effect of the external converter on its destination
artifact: when the process actually ran, it may have written the destination
(`eff = some fd`); a child that never spawned wrote nothing. -/
def applyX2t (fs : FS) (outputPath : String) (outcome : ProcOutcome)
    (eff : Option FileData) : FS :=
  match outcome, eff with
  | ProcOutcome.exited _, some fd => fs.forceWrite outputPath fd
  | _, _ => fs

/-! ## Responses and effect traces -/

/-- Responses of `GET /api/convert`. -/
inductive ConvResp
  | missingFilepath
  | invalidPath
  | sourceNotFound
  | cacheHit (bytes : ByteSeq)
  | convFailed (stderr : String)
  | convNoOutput
  | converted (bytes : ByteSeq)
deriving DecidableEq, Repr

/-- Responses of `POST /api/save`. -/
inductive SaveResp
  | missingFilepath
  | invalidPath
  | savedNative (path : String) (size : Nat)
  | nativeFailed (msg : String)
  | unsupportedFormat
  | saveConvFailed
  | saveNoOutput
  | savedConverted (path : String) (size : Nat)
deriving DecidableEq, Repr

/-- Either an HTTP response produced by the handler itself, or a fault that
escaped it (an uncaught exception or an unhandled `'error'` event). -/
inductive Outcome (R : Type)
  | response (r : R)
  | fault (msg : String)
deriving DecidableEq, Repr

/-- Filesystem / process effects, recorded in order. -/
inductive Eff
  | existsCheck (p : String)
  | statCall (p : String)
  | readFile (p : String)
  | writeFile (p : String)
  | mkdirp (p : String)
  | unlink (p : String)
  | spawnX2t
deriving DecidableEq, Repr

/-- Checked file write: `fs.writeFileSync` throws `ENOENT`/`ENOTDIR` (here
`none`) unless the parent directory exists as a directory. -/
def FS.writeFile (fs : FS) (p : String) (fd : FileData) : Option FS :=
  if fs.dirs.contains (dirname p) then some (fs.forceWrite p fd) else none

/-! ## Derived paths -/

/-- The per-fingerprint working directory of a convert request:
`__dirname/test/output/<hash>` (source line 297). -/
def convOutputDir (base p : String) : String :=
  joinP (joinP (joinP base "test") "output") (generateFileHash p)

/-- The cached-artifact path `workingDirectory/Editor.bin` (source line 308). -/
def convOutputPath (base p : String) : String :=
  joinP (convOutputDir base p) "Editor.bin"

/-- The transient descriptor path `workingDirectory/params_temp.xml`
(source line 309). -/
def convParamsPath (base p : String) : String :=
  joinP (convOutputDir base p) "params_temp.xml"

/-- `__dirname/test/output`, the shared fallback directory of `/api/save`
(source line 683). -/
def saveOutputBase (base : String) : String := joinP (joinP base "test") "output"

/-- The save working directory: hash-specific when a fingerprint was
supplied, the shared fallback otherwise (source line 688). -/
def saveHashDir (base : String) (filehash? : Option String) : String :=
  match filehash? with
  | some h => joinP (saveOutputBase base) h
  | none => saveOutputBase base

/-- The temporary binary of the save conversion branch (source line 744). -/
def saveChangesBinPath (base : String) (filehash? : Option String) : String :=
  joinP (saveHashDir base filehash?) "temp_changes.bin"

/-- The transient descriptor of the save conversion branch (source line 745). -/
def saveParamsPath (base : String) (filehash? : Option String) : String :=
  joinP (saveHashDir base filehash?) "params_save.xml"

/-! ## The close handlers -/

/-- The decision logic of `/api/convert`'s `'close'` callback after the
descriptor cleanup (source lines 418-457): a non-zero (or null) exit code is
a conversion failure carrying the captured stderr; exit zero without the
artifact on disk is the distinct missing-output failure; exit zero with the
artifact present reads it back and returns its bytes. -/
def convertCloseResp (fsAfterCleanup : FS) (outputPath : String) (code : Option Int)
    (stderr : String) : Outcome ConvResp :=
  if code ≠ some 0 then Outcome.response (ConvResp.convFailed stderr)
  else if fsAfterCleanup.existsPath outputPath then
    match fsAfterCleanup.lookup outputPath with
    | some art => Outcome.response (ConvResp.converted art.content)
    | none => Outcome.fault "EISDIR: readFileSync on a directory"
  else Outcome.response ConvResp.convNoOutput

/-- The decision logic of `/api/save`'s `'close'` callback after the temp
cleanup (source lines 817-831); the captured stderr is not consulted at
all. -/
def saveCloseResp (fsAfterCleanup : FS) (outputPath : String) (code : Option Int) :
    Outcome SaveResp :=
  if code ≠ some 0 then Outcome.response SaveResp.saveConvFailed
  else if fsAfterCleanup.existsPath outputPath then
    match fsAfterCleanup.lookup outputPath with
    | some st => Outcome.response (SaveResp.savedConverted outputPath st.content.length)
    | none => Outcome.fault "EISDIR: statSync on a directory"
  else Outcome.response SaveResp.saveNoOutput

/-! ## GET /api/convert -/

/-- Result of a convert request: final filesystem, effect trace, outcome. -/
structure ConvOut where
  fs : FS
  trace : List Eff
  resp : Outcome ConvResp
deriving DecidableEq, Repr

/-- Shallow embedding of `GET /api/convert` (source lines 280-457).
Parameters: `base` is `__dirname`, `fontDataDir` is `FONT_DATA_DIR`, `now`
timestamps files written by the handler, `tsNow` is the ISO timestamp
interpolated into the descriptor, and `outcome`/`eff`/`stderr` model the
external x2t process (exit status, observable artifact write, captured
stderr).  A source or artifact path that denotes a directory is outside the
model and yields a fault. -/
def apiConvert (base fontDataDir : String) (fs : FS) (filepath? : Option String)
    (now : Nat) (tsNow : String) (outcome : ProcOutcome) (eff : Option FileData)
    (stderr : String) : ConvOut :=
  match filepath? with
  | none => ⟨fs, [], Outcome.response ConvResp.missingFilepath⟩
  | some filepath =>
    -- JS `if (!filepath)`: an empty string is falsy and hits the
    -- missing-parameter guard, not the absolute-path guard
    if filepath = "" then ⟨fs, [], Outcome.response ConvResp.missingFilepath⟩
    else if ¬ isAbsolutePath filepath then ⟨fs, [], Outcome.response ConvResp.invalidPath⟩
    else
      let outputDir := convOutputDir base filepath
      let inputPath := filepath
      if ¬ fs.existsPath inputPath then
        ⟨fs, [Eff.existsCheck inputPath], Outcome.response ConvResp.sourceNotFound⟩
      else
        let outputPath := convOutputPath base filepath
        let paramsPath := convParamsPath base filepath
        let filename := basename filepath
        match fs.statMtime inputPath with
        | none =>
          ⟨fs, [Eff.existsCheck inputPath, Eff.statCall inputPath],
            Outcome.fault "EISDIR: statSync on a directory"⟩
        | some sourceMtime =>
          let t0 := [Eff.existsCheck inputPath, Eff.statCall inputPath,
                     Eff.existsCheck outputPath]
          -- the cache-miss / stale continuation (source lines 340-457)
          let miss : List Eff → ConvOut := fun tPre =>
            let (fs1, t1) :=
              if fs.existsPath outputDir then (fs, tPre ++ [Eff.existsCheck outputDir])
              else (fs.mkdirRec outputDir,
                    tPre ++ [Eff.existsCheck outputDir, Eff.mkdirp outputDir])
            let xml := convertXmlConfig inputPath outputPath filename fontDataDir
              (joinP (joinP (joinP (joinP base "editors") "sdkjs") "slide") "themes") tsNow
            match fs1.writeFile paramsPath ⟨strBytes xml, now⟩ with
            | none =>
              ⟨fs1, t1 ++ [Eff.writeFile paramsPath],
                Outcome.fault "ENOENT: writeFileSync params_temp.xml"⟩
            | some fs2 =>
              let t2 := t1 ++ [Eff.writeFile paramsPath, Eff.spawnX2t]
              match closeCode convertHasErrorListener outcome with
              | none => ⟨fs2, t2, Outcome.fault "unhandled error event on x2t spawn failure"⟩
              | some code =>
                let fs3 := applyX2t fs2 outputPath outcome eff
                let fs4 := fs3.unlink paramsPath
                ⟨fs4, t2 ++ [Eff.unlink paramsPath],
                  convertCloseResp fs4 outputPath code stderr⟩
          if fs.existsPath outputPath then
            match fs.lookup outputPath with
            | none =>
              ⟨fs, t0 ++ [Eff.statCall outputPath],
                Outcome.fault "EISDIR: statSync on a directory"⟩
            | some art =>
              if sourceMtime < art.mtime then
                ⟨fs, t0 ++ [Eff.statCall outputPath, Eff.readFile outputPath],
                  Outcome.response (ConvResp.cacheHit art.content)⟩
              else miss (t0 ++ [Eff.statCall outputPath])
          else miss t0

/-! ## POST /api/save -/

/-- Which branch the payload sniff selected. -/
inductive Branch
  | native
  | viaConverter
deriving DecidableEq, Repr

/-- Result of a save request: final filesystem, effect trace, selected
branch (`none` when the request was rejected before classification), and
outcome. -/
structure SaveOut where
  fs : FS
  trace : List Eff
  branch : Option Branch
  resp : Outcome SaveResp
deriving DecidableEq, Repr

/-- Shallow embedding of `POST /api/save` (source lines 668-833).
`contentType` is the declared `Content-Type` header, which the handler only
logs; `body` is the raw payload.  Other parameters as in `apiConvert`. -/
def apiSave (base fontDataDir : String) (fs : FS) (filepath? filehash? : Option String)
    (body : ByteSeq) (contentType : Option String) (now : Nat) (tsNow : String)
    (outcome : ProcOutcome) (eff : Option FileData) (stderr : String) : SaveOut :=
  match filepath? with
  | none => ⟨fs, [], none, Outcome.response SaveResp.missingFilepath⟩
  | some filepath =>
    -- JS `if (!filepath)`: an empty string is falsy and hits the
    -- missing-parameter guard, not the absolute-path guard
    if filepath = "" then ⟨fs, [], none, Outcome.response SaveResp.missingFilepath⟩
    else if ¬ isAbsolutePath filepath then
      ⟨fs, [], none, Outcome.response SaveResp.invalidPath⟩
    else
      let outputPath := filepath
      let parentDir := dirname outputPath
      let (fs1, t1) :=
        if fs.existsPath parentDir then (fs, [Eff.existsCheck parentDir])
        else (fs.mkdirRec parentDir, [Eff.existsCheck parentDir, Eff.mkdirp parentDir])
      let filename := basename filepath
      if isXLSXSignature (some body) then
        -- native branch: the payload is already the destination container
        match fs1.writeFile outputPath ⟨body, now⟩ with
        | none =>
          -- writeFileSync threw; caught by the branch's try/catch (line 724)
          ⟨fs1, t1 ++ [Eff.writeFile outputPath], some Branch.native,
            Outcome.response (SaveResp.nativeFailed "ENOENT")⟩
        | some fs2 =>
          match fs2.lookup outputPath with
          | some st =>
            ⟨fs2, t1 ++ [Eff.writeFile outputPath, Eff.statCall outputPath],
              some Branch.native,
              Outcome.response (SaveResp.savedNative outputPath st.content.length)⟩
          | none => ⟨fs2, t1, some Branch.native, Outcome.fault "unreachable"⟩
      else
        -- conversion branch: treat the payload as the intermediate binary
        let ext := lowerStr (extname filepath)
        match getOutputFormatInfo ext with
        | none => ⟨fs1, t1, some Branch.viaConverter,
            Outcome.response SaveResp.unsupportedFormat⟩
        | some finfo =>
          let changesBinPath := saveChangesBinPath base filehash?
          let paramsPath := saveParamsPath base filehash?
          match fs1.writeFile changesBinPath ⟨body, now⟩ with
          | none =>
            -- writeFileSync throw outside any try/catch (source line 748)
            ⟨fs1, t1 ++ [Eff.writeFile changesBinPath], some Branch.viaConverter,
              Outcome.fault "ENOENT: writeFileSync temp_changes.bin"⟩
          | some fs2 =>
            let xml := saveXmlConfig changesBinPath outputPath filename finfo.code ext
              fontDataDir
              (joinP (joinP (joinP (joinP base "editors") "sdkjs") "slide") "themes") tsNow
            match fs2.writeFile paramsPath ⟨strBytes xml, now⟩ with
            | none =>
              ⟨fs2, t1 ++ [Eff.writeFile changesBinPath, Eff.writeFile paramsPath],
                some Branch.viaConverter,
                Outcome.fault "ENOENT: writeFileSync params_save.xml"⟩
            | some fs3 =>
              let t2 := t1 ++ [Eff.writeFile changesBinPath, Eff.writeFile paramsPath,
                               Eff.spawnX2t]
              match closeCode saveHasErrorListener outcome with
              | none => ⟨fs3, t2, some Branch.viaConverter,
                  Outcome.fault "unhandled error event on x2t spawn failure"⟩
              | some code =>
                let fs4 := applyX2t fs3 outputPath outcome eff
                let fs5 := if fs4.existsPath paramsPath then fs4.unlink paramsPath else fs4
                let fs6 := if fs5.existsPath changesBinPath then fs5.unlink changesBinPath
                  else fs5
                ⟨fs6, t2 ++ [Eff.unlink paramsPath, Eff.unlink changesBinPath],
                  some Branch.viaConverter, saveCloseResp fs6 outputPath code⟩

/-- Forget the payloads of a convert outcome, keeping only which kind of
result it is (used to state that captured stderr never steers control
flow). -/
def convRespClass : Outcome ConvResp → Nat
  | Outcome.fault _ => 0
  | Outcome.response ConvResp.missingFilepath => 1
  | Outcome.response ConvResp.invalidPath => 2
  | Outcome.response ConvResp.sourceNotFound => 3
  | Outcome.response (ConvResp.cacheHit _) => 4
  | Outcome.response (ConvResp.convFailed _) => 5
  | Outcome.response ConvResp.convNoOutput => 6
  | Outcome.response (ConvResp.converted _) => 7

/-! ## Helper lemmas: paths -/

theorem toList_append (a b : String) : (a ++ b).toList = a.toList ++ b.toList := by
  cases a; cases b; rfl

theorem mk_toList (s : String) : String.mk s.toList = s := rfl

theorem toList_joinP (a b : String) :
    (joinP a b).toList = a.toList ++ '/' :: b.toList := by
  simp [joinP, toList_append]

theorem beforeLastSlash_append_none {ys : List Char} (h : beforeLastSlash ys = none)
    (xs : List Char) : beforeLastSlash (xs ++ '/' :: ys) = some xs := by
  induction xs with
  | nil => simp [beforeLastSlash, h]
  | cons c xs ih => simp [beforeLastSlash, ih]

theorem length_joinP (a b : String) :
    (joinP a b).length = a.length + 1 + b.length := by
  have h1 : ("/" : String).length = 1 := rfl
  simp [joinP, String.length_append, h1]

/-- For a slash-free last component, `dirname` of a join recovers the
directory. -/
theorem dirname_joinP (d s : String) (hd : d ≠ "")
    (hs : beforeLastSlash s.toList = none) : dirname (joinP d s) = d := by
  have hlist : (joinP d s).toList = d.toList ++ '/' :: s.toList := toList_joinP d s
  have hb : beforeLastSlash (joinP d s).toList = some d.toList := by
    rw [hlist]; exact beforeLastSlash_append_none hs d.toList
  have hdl : d.toList ≠ [] := by
    intro h
    apply hd
    have := congrArg String.mk h
    simpa [mk_toList] using this
  unfold dirname
  rw [hb]
  match hcase : d.toList with
  | [] => exact absurd hcase hdl
  | c :: cs => simp [← hcase, mk_toList]

theorem joinP_ne_empty (a b : String) : joinP a b ≠ "" := by
  intro h
  have := congrArg String.length h
  rw [length_joinP] at this
  simp at this

theorem joinP_ne_of_length_ne (d : String) {s t : String}
    (h : s.length ≠ t.length) : joinP d s ≠ joinP d t := by
  intro he
  apply h
  have := congrArg String.length he
  rw [length_joinP, length_joinP] at this
  omega

/-! ## Helper lemmas: the filesystem model -/

theorem lookup_cons_self (fd : FileData) (l : List (String × FileData)) (p : String) :
    List.lookup p ((p, fd) :: l) = some fd := by
  simp [List.lookup]

theorem lookup_cons_ne (fd : FileData) (l : List (String × FileData)) {p q : String}
    (h : p ≠ q) : List.lookup p ((q, fd) :: l) = List.lookup p l := by
  simp [List.lookup, beq_eq_false_iff_ne.mpr h]

theorem FS.lookup_forceWrite_self (fs : FS) (p : String) (fd : FileData) :
    (fs.forceWrite p fd).lookup p = some fd := by
  simp [FS.forceWrite, FS.lookup, lookup_cons_self]

theorem FS.lookup_forceWrite_ne (fs : FS) {p q : String} (fd : FileData) (h : p ≠ q) :
    (fs.forceWrite q fd).lookup p = fs.lookup p := by
  simp [FS.forceWrite, FS.lookup, lookup_cons_ne _ _ h]

theorem lookup_filter_ne {p q : String} (l : List (String × FileData)) (h : p ≠ q) :
    List.lookup p (l.filter (fun e => e.1 != q)) = List.lookup p l := by
  induction l with
  | nil => rfl
  | cons e l ih =>
    cases e with
    | mk k fd =>
      by_cases he : k = q
      · subst he
        simp only [List.filter_cons, bne_self_eq_false, if_neg]
        rw [lookup_cons_ne fd l h]
        simpa using ih
      · have hcond : ((k, fd).1 != q) = true := by simpa using he
        rw [List.filter_cons, if_pos hcond]
        by_cases hp : p = k
        · subst hp
          simp [lookup_cons_self]
        · rw [lookup_cons_ne fd _ hp, lookup_cons_ne fd l hp]
          exact ih

theorem FS.lookup_unlink_ne (fs : FS) {p q : String} (h : p ≠ q) :
    (fs.unlink q).lookup p = fs.lookup p := by
  simp only [FS.unlink, FS.lookup]
  exact lookup_filter_ne fs.files h

theorem FS.lookup_unlink_self (fs : FS) (p : String) :
    (fs.unlink p).lookup p = none := by
  simp only [FS.unlink, FS.lookup]
  induction fs.files with
  | nil => rfl
  | cons e l ih =>
    cases e with
    | mk k fd =>
      by_cases he : k = p
      · subst he
        simp only [List.filter_cons, bne_self_eq_false, if_neg]
        simpa using ih
      · have hcond : ((k, fd).1 != p) = true := by simpa using he
        rw [List.filter_cons, if_pos hcond]
        rw [lookup_cons_ne fd _ (Ne.symm he)]
        exact ih

theorem FS.dirs_forceWrite (fs : FS) (p : String) (fd : FileData) :
    (fs.forceWrite p fd).dirs = fs.dirs := rfl

theorem FS.dirs_unlink (fs : FS) (p : String) : (fs.unlink p).dirs = fs.dirs := rfl

theorem FS.dirs_mkdirRec_mem (fs : FS) (p : String) :
    (fs.mkdirRec p).dirs.contains p = true := by
  simp [FS.mkdirRec]
  left
  cases hp : p.length + 2 with
  | zero => simp at hp
  | succ n =>
    simp [selfAndAncestors]
    split <;> simp

theorem FS.mem_dirs_mkdirRec_of_mem (fs : FS) (p q : String)
    (h : fs.dirs.contains q = true) : (fs.mkdirRec p).dirs.contains q = true := by
  simp [FS.mkdirRec] at h ⊢
  right
  simpa using h

/-- A key outside a table's key set looks up to the sentinel. -/
theorem lookup_eq_none_of_contains_false :
    ∀ (l : List (String × FormatInfo)) (k : String),
      (l.map Prod.fst).contains k = false → l.lookup k = none := by
  intro l
  induction l with
  | nil => intro k _; rfl
  | cons e l ih =>
    intro k h
    cases e with
    | mk a v =>
      by_cases hk : (k == a) = true
      · exfalso
        rw [List.map_cons, List.contains_cons, hk] at h
        simp at h
      · have hk' : (k == a) = false := by simpa using hk
        rw [List.map_cons, List.contains_cons, hk'] at h
        simp only [Bool.false_or] at h
        simp only [List.lookup, hk']
        exact ih k h

theorem FS.dirs_applyX2t (fs : FS) (p : String) (o : ProcOutcome) (e : Option FileData) :
    (applyX2t fs p o e).dirs = fs.dirs := by
  unfold applyX2t
  split <;> rfl

theorem writeFile_eq_some_iff {fs fs' : FS} {p : String} {fd : FileData} :
    fs.writeFile p fd = some fs'
      ↔ (fs.dirs.contains (dirname p) = true ∧ fs' = fs.forceWrite p fd) := by
  unfold FS.writeFile
  split <;> rename_i hc
  · simp_all [eq_comm]
  · simp_all

/-! ## Helper lemmas: the path digest -/

theorem foldl_mix_lt (i : Nat) (l : List Char) :
    ∀ a, a < 256 → l.foldl (fun a c => (a * 131 + c.toNat + i * 17) % 256) a < 256 := by
  induction l with
  | nil => intro a h; simpa using h
  | cons c l ih =>
    intro a _
    exact ih _ (Nat.mod_lt _ (by norm_num))

theorem digestLane_lt (p : String) (i : Nat) : digestLane p i < 256 :=
  foldl_mix_lt i p.toList _ (Nat.mod_lt _ (by norm_num))

theorem digest16_length (p : String) : (digest16 p).length = 16 := by
  simp [digest16]

theorem isLowerHexDigit_hexDigit (n : Nat) : isLowerHexDigit (hexDigit n) = true := by
  rcases n with _ | _ | _ | _ | _ | _ | _ | _ | _ | _ | _ | _ | _ | _ | _ | m <;> rfl

theorem length_flatMap_byteHex (l : List Nat) :
    (l.flatMap byteHex).length = 2 * l.length := by
  induction l with
  | nil => rfl
  | cons b l ih =>
    simp only [List.flatMap_cons, List.length_append, List.length_cons, ih, byteHex,
      List.length_nil]
    omega

theorem mem_flatMap_byteHex {c : Char} {l : List Nat}
    (h : c ∈ l.flatMap byteHex) : ∃ b, b ∈ l ∧ c ∈ byteHex b := by
  induction l with
  | nil => simp at h
  | cons b l ih =>
    rw [List.flatMap_cons, List.mem_append] at h
    cases h with
    | inl h => exact ⟨b, List.mem_cons_self b l, h⟩
    | inr h =>
      obtain ⟨b', hb', hc⟩ := ih h
      exact ⟨b', List.mem_cons_of_mem b hb', hc⟩

/-! ## The claims -/

/-- C8: the fingerprint function is deterministic and pure — for every path
string `p` it returns the same value on every invocation, the output is
exactly 32 lowercase hexadecimal characters (a 16-byte digest), and it is a
function of the path string alone (it takes no filesystem state, so it cannot
depend on file contents or modification times). -/
theorem C8_generateFileHash_deterministic_hex32 (p : String) :
    (generateFileHash p).length = 32 ∧
    ((generateFileHash p).toList.all isLowerHexDigit) = true ∧
    generateFileHash p = generateFileHash p := by
  refine ⟨?_, ?_, rfl⟩
  · show ((digest16 p).flatMap byteHex).length = 32
    rw [length_flatMap_byteHex, digest16_length]
  · rw [List.all_eq_true]
    intro c hc
    have hc' : c ∈ (digest16 p).flatMap byteHex := hc
    obtain ⟨b, _, hcb⟩ := mem_flatMap_byteHex hc'
    simp only [byteHex, List.mem_cons, List.mem_singleton] at hcb
    rcases hcb with h | h | h
    · rw [h]; exact isLowerHexDigit_hexDigit _
    · rw [h]; exact isLowerHexDigit_hexDigit _
    · simp at h

/-- C5 counterexample: the filepath query value `""` is not an absolute path,
yet the save handler rejects it with the missing-parameter error (JS
`if (!filepath)` treats the empty string as falsy), not with `InvalidPath`. -/
theorem C5_counterexample_empty_filepath :
    isAbsolutePath "" = false ∧
    (apiSave "/srv" "/fonts" ⟨[], []⟩ (some "") none [] none 0 ""
        (ProcOutcome.exited 0) none "").resp
      = Outcome.response SaveResp.missingFilepath ∧
    (apiSave "/srv" "/fonts" ⟨[], []⟩ (some "") none [] none 0 ""
        (ProcOutcome.exited 0) none "").resp
      ≠ Outcome.response SaveResp.invalidPath := by
  refine ⟨rfl, by decide, by decide⟩

/-- C5 (amended): for every save request whose filepath query parameter is a
non-empty string that is not an absolute path, the request fails with the
InvalidPath error before any filesystem read or write and before any process
is spawned — the filesystem is returned untouched and the effect trace is
empty.  (An empty filepath is treated as a missing parameter and fails with
the missing-parameter error instead, likewise before any interaction.) -/
theorem C5_save_relative_path_rejected_before_effects
    (base fontDataDir : String) (fs : FS) (p : String) (filehash? : Option String)
    (body : ByteSeq) (contentType : Option String) (now : Nat) (tsNow : String)
    (outcome : ProcOutcome) (eff : Option FileData) (stderr : String)
    (hne : p ≠ "") (habs : isAbsolutePath p = false) :
    apiSave base fontDataDir fs (some p) filehash? body contentType now tsNow outcome
        eff stderr
      = ⟨fs, [], none, Outcome.response SaveResp.invalidPath⟩ := by
  simp [apiSave, hne, habs]

/-- The signature sniff accepts exactly the payloads of length at least 4
beginning with `50 4B 03 04`. -/
theorem isXLSXSignature_iff (body : ByteSeq) :
    isXLSXSignature (some body) = true ↔
      ∃ rest, body = 0x50 :: 0x4B :: 0x03 :: 0x04 :: rest := by
  constructor
  · intro h
    rcases body with _ | ⟨b0, _ | ⟨b1, _ | ⟨b2, _ | ⟨b3, rest⟩⟩⟩⟩ <;>
      simp [isXLSXSignature] at h
    exact ⟨rest, by simp_all⟩
  · rintro ⟨rest, rfl⟩
    simp [isXLSXSignature]

/-- A non-empty string hypothesis out of absoluteness. -/
theorem ne_empty_of_isAbsolutePath {p : String} (habs : isAbsolutePath p = true) :
    ¬ p = "" := by
  intro h
  subst h
  simp [isAbsolutePath] at habs

/-- Full evaluation of the native branch of `/api/save`: when the signature
matches and the destination's parent is not an existing regular file, the
payload is written verbatim, no process is spawned, and the handler reports
the written size. -/
theorem apiSave_native_eval
    (base fontDataDir : String) (fs : FS) (p : String) (filehash? : Option String)
    (body : ByteSeq) (contentType : Option String) (now : Nat) (tsNow : String)
    (outcome : ProcOutcome) (eff : Option FileData) (stderr : String)
    (habs : isAbsolutePath p = true)
    (hsig : isXLSXSignature (some body) = true)
    (hpd : fs.dirs.contains (dirname p) = true ∨ fs.lookup (dirname p) = none) :
    (apiSave base fontDataDir fs (some p) filehash? body contentType now tsNow outcome
        eff stderr).resp
        = Outcome.response (SaveResp.savedNative p body.length) ∧
    (apiSave base fontDataDir fs (some p) filehash? body contentType now tsNow outcome
        eff stderr).fs.lookup p = some ⟨body, now⟩ ∧
    Eff.spawnX2t ∉ (apiSave base fontDataDir fs (some p) filehash? body contentType now
        tsNow outcome eff stderr).trace ∧
    (apiSave base fontDataDir fs (some p) filehash? body contentType now tsNow outcome
        eff stderr).branch = some Branch.native := by
  have hne := ne_empty_of_isAbsolutePath habs
  by_cases hex : fs.existsPath (dirname p) = true
  · have hc1 : fs.dirs.contains (dirname p) = true := by
      rcases hpd with h | h
      · exact h
      · simpa [FS.existsPath, h] using hex
    have hc1m : dirname p ∈ fs.dirs := by simpa using hc1
    simp [apiSave, hne, habs, hex, hsig, FS.writeFile, hc1m,
      FS.lookup_forceWrite_self]
  · have hc1 : (fs.mkdirRec (dirname p)).dirs.contains (dirname p) = true :=
      FS.dirs_mkdirRec_mem fs (dirname p)
    have hc1m : dirname p ∈ (fs.mkdirRec (dirname p)).dirs := by simpa using hc1
    simp [apiSave, hne, habs, hex, hsig, FS.writeFile, hc1m,
      FS.lookup_forceWrite_self]

/-- The branch selected by `/api/save` is a function of the signature sniff
alone. -/
theorem apiSave_branch_eq
    (base fontDataDir : String) (fs : FS) (p : String) (filehash? : Option String)
    (body : ByteSeq) (contentType : Option String) (now : Nat) (tsNow : String)
    (outcome : ProcOutcome) (eff : Option FileData) (stderr : String)
    (habs : isAbsolutePath p = true) :
    (apiSave base fontDataDir fs (some p) filehash? body contentType now tsNow outcome
        eff stderr).branch
      = (if isXLSXSignature (some body) then some Branch.native
         else some Branch.viaConverter) := by
  have hne := ne_empty_of_isAbsolutePath habs
  simp only [apiSave]
  rw [if_neg hne, if_neg (by simp [habs])]
  by_cases hsig : isXLSXSignature (some body) = true <;>
    simp only [hsig, if_true, if_false, ite_true, ite_false, Bool.false_eq_true] <;>
    (repeat' split) <;> rfl

/-- C2: for every save request with an absolute filepath the payload is
routed by signature sniffing alone — the native branch is selected exactly
when the payload has at least 4 bytes and begins with `50 4B 03 04`, in which
case the bytes are written verbatim to the filepath and no converter process
is spawned; any other payload (including those shorter than 4 bytes) goes to
the conversion branch; and the declared content type has no influence on the
result at all. -/
theorem C2_save_payload_routing_by_signature
    (base fontDataDir : String) (fs : FS) (p : String) (filehash? : Option String)
    (body : ByteSeq) (ct1 ct2 : Option String) (now : Nat) (tsNow : String)
    (outcome : ProcOutcome) (eff : Option FileData) (stderr : String)
    (habs : isAbsolutePath p = true) :
    ((apiSave base fontDataDir fs (some p) filehash? body ct1 now tsNow outcome eff
        stderr).branch = some Branch.native ↔
      ∃ rest, body = 0x50 :: 0x4B :: 0x03 :: 0x04 :: rest) ∧
    ((apiSave base fontDataDir fs (some p) filehash? body ct1 now tsNow outcome eff
        stderr).branch = some Branch.viaConverter ↔
      ¬ ∃ rest, body = 0x50 :: 0x4B :: 0x03 :: 0x04 :: rest) ∧
    (isXLSXSignature (some body) = true →
      (fs.dirs.contains (dirname p) = true ∨ fs.lookup (dirname p) = none) →
      (apiSave base fontDataDir fs (some p) filehash? body ct1 now tsNow outcome eff
          stderr).resp = Outcome.response (SaveResp.savedNative p body.length) ∧
      (apiSave base fontDataDir fs (some p) filehash? body ct1 now tsNow outcome eff
          stderr).fs.lookup p = some ⟨body, now⟩ ∧
      Eff.spawnX2t ∉ (apiSave base fontDataDir fs (some p) filehash? body ct1 now tsNow
          outcome eff stderr).trace) ∧
    apiSave base fontDataDir fs (some p) filehash? body ct1 now tsNow outcome eff stderr
      = apiSave base fontDataDir fs (some p) filehash? body ct2 now tsNow outcome eff
          stderr := by
  have hb := apiSave_branch_eq base fontDataDir fs p filehash? body ct1 now tsNow
    outcome eff stderr habs
  have h1 : (apiSave base fontDataDir fs (some p) filehash? body ct1 now tsNow outcome
      eff stderr).branch = some Branch.native ↔ isXLSXSignature (some body) = true := by
    rw [hb]
    by_cases hsig : isXLSXSignature (some body) = true <;> simp [hsig]
  have h2 : (apiSave base fontDataDir fs (some p) filehash? body ct1 now tsNow outcome
      eff stderr).branch = some Branch.viaConverter
        ↔ ¬ isXLSXSignature (some body) = true := by
    rw [hb]
    by_cases hsig : isXLSXSignature (some body) = true <;> simp [hsig]
  refine ⟨h1.trans (isXLSXSignature_iff body),
    h2.trans (not_congr (isXLSXSignature_iff body)), ?_, rfl⟩
  intro hsig hpd
  have h := apiSave_native_eval base fontDataDir fs p filehash? body ct1 now tsNow
    outcome eff stderr habs hsig hpd
  exact ⟨h.1, h.2.1, h.2.2.1⟩

/-- C2 witness: a 5-byte ZIP-signature payload sent to `/tmp/a.xlsx` is
written verbatim (size 5) with no converter spawn, and the branch facts hold
at this concrete input. -/
theorem C2_witness :
    (apiSave "/srv" "/fonts" ⟨["/tmp"], []⟩ (some "/tmp/a.xlsx") none
        [0x50, 0x4B, 0x03, 0x04, 9] (some "text/plain") 3 "t"
        (ProcOutcome.exited 0) none "").resp
      = Outcome.response (SaveResp.savedNative "/tmp/a.xlsx" 5) :=
  ((C2_save_payload_routing_by_signature "/srv" "/fonts" ⟨["/tmp"], []⟩ "/tmp/a.xlsx"
      none [0x50, 0x4B, 0x03, 0x04, 9] (some "text/plain") (some "text/html") 3 "t"
      (ProcOutcome.exited 0) none "" (by decide)).2.2.1 (by decide)
    (Or.inl (by decide))).1

/-- Evaluation of the conversion branch's unsupported-format exit: a non-ZIP
payload whose destination extension is outside the registry is rejected with
UnsupportedFormat and no process is spawned. -/
theorem apiSave_unsupported_eval
    (base fontDataDir : String) (fs : FS) (p : String) (filehash? : Option String)
    (body : ByteSeq) (contentType : Option String) (now : Nat) (tsNow : String)
    (outcome : ProcOutcome) (eff : Option FileData) (stderr : String)
    (habs : isAbsolutePath p = true)
    (hsig : isXLSXSignature (some body) = false)
    (hfmt : getOutputFormatInfo (lowerStr (extname p)) = none) :
    (apiSave base fontDataDir fs (some p) filehash? body contentType now tsNow outcome
        eff stderr).resp = Outcome.response SaveResp.unsupportedFormat ∧
    Eff.spawnX2t ∉ (apiSave base fontDataDir fs (some p) filehash? body contentType now
        tsNow outcome eff stderr).trace := by
  have hne := ne_empty_of_isAbsolutePath habs
  by_cases hex : fs.existsPath (dirname p) = true <;>
    simp [apiSave, hne, habs, hex, hsig, hfmt]

/-- C6: for every extension of the four families, case-insensitive and with
or without a leading dot, the Format Registry returns the family's canonical
record (word-processor family -> 65/DOCX, presentation family -> 129/PPTX,
spreadsheet family -> 257/XLSX, csv -> 260/CSV); every extension outside the
table's key set returns the not-found sentinel (the lookup is total, so it
never throws); and a save request routed to the conversion branch with an
unsupported extension fails with UnsupportedFormat without spawning a
process. -/
theorem C6_format_registry_families :
    ((["doc", "docx", "odt", "txt", "rtf", "html"].all (familyOk ⟨65, "DOCX"⟩)) = true ∧
     (["ppt", "pptx", "odp"].all (familyOk ⟨129, "PPTX"⟩)) = true ∧
     (["xls", "xlsx", "ods"].all (familyOk ⟨257, "XLSX"⟩)) = true ∧
     familyOk ⟨260, "CSV"⟩ "csv" = true ∧
     getOutputFormatInfo ".pdf" = none ∧ getOutputFormatInfo ".zip" = none ∧
     getOutputFormatInfo "unknown" = none) ∧
    (∀ e, supportedExts.contains (normalizeExt e) = false →
      getOutputFormatInfo e = none) ∧
    (∀ (base fontDataDir : String) (fs : FS) (p : String) (filehash? : Option String)
        (body : ByteSeq) (contentType : Option String) (now : Nat) (tsNow : String)
        (outcome : ProcOutcome) (eff : Option FileData) (stderr : String),
      isAbsolutePath p = true → isXLSXSignature (some body) = false →
      getOutputFormatInfo (lowerStr (extname p)) = none →
      (apiSave base fontDataDir fs (some p) filehash? body contentType now tsNow outcome
          eff stderr).resp = Outcome.response SaveResp.unsupportedFormat ∧
      Eff.spawnX2t ∉ (apiSave base fontDataDir fs (some p) filehash? body contentType
          now tsNow outcome eff stderr).trace) := by
  refine ⟨by decide, ?_, ?_⟩
  · intro e h
    exact lookup_eq_none_of_contains_false formatTable (normalizeExt e) h
  · intro base fontDataDir fs p filehash? body contentType now tsNow outcome eff stderr
      habs hsig hfmt
    exact apiSave_unsupported_eval base fontDataDir fs p filehash? body contentType now
      tsNow outcome eff stderr habs hsig hfmt

/-- C6 witness: saving a non-ZIP payload to `/tmp/out.zip` (extension outside
the registry) fails with UnsupportedFormat. -/
theorem C6_witness :
    (apiSave "/srv" "/fonts" ⟨["/tmp"], []⟩ (some "/tmp/out.zip") none [1, 2] none 3 "t"
        (ProcOutcome.exited 0) none "").resp
      = Outcome.response SaveResp.unsupportedFormat :=
  (C6_format_registry_families.2.2 "/srv" "/fonts" ⟨["/tmp"], []⟩ "/tmp/out.zip" none
    [1, 2] none 3 "t" (ProcOutcome.exited 0) none "" (by decide) (by decide)
    (by decide)).1

/-- A pattern occurring in the middle part occurs in the whole
concatenation. -/
theorem infix_of_middle (pat : List Char) (a mid b : String)
    (h : pat <:+: mid.toList) : pat <:+: (a ++ mid ++ b).toList := by
  have he : (a ++ mid ++ b).toList = a.toList ++ mid.toList ++ b.toList := by
    rw [toList_append, toList_append]
  rw [he]
  exact h.trans ⟨a.toList, b.toList, rfl⟩

theorem encoding_infix_csvFields :
    "<m_nCsvTxtEncoding>46</m_nCsvTxtEncoding>".toList <:+: csvFields.toList :=
  ⟨['\n'], "\n<m_nCsvDelimiter>4</m_nCsvDelimiter>".toList, by decide⟩

theorem delimiter_infix_csvFields :
    "<m_nCsvDelimiter>4</m_nCsvDelimiter>".toList <:+: csvFields.toList :=
  ⟨"\n<m_nCsvTxtEncoding>46</m_nCsvTxtEncoding>\n".toList, [], by decide⟩

/-- C7: in both generated job descriptors the CSV-specific fields
`m_nCsvTxtEncoding` / `m_nCsvDelimiter` are inserted if and only if the
resolved target/source extension is `.csv` — when the extension is `.csv`
the descriptor is the fixed prefix, then exactly the two fields carrying the
fixed values 46 (UTF-8) and 4 (comma), then the fixed tail; otherwise the
descriptor is the prefix followed immediately by the tail, with no CSV
fields inserted. -/
theorem C7_csv_fields_iff
    (i o f fd td ts cb op fn : String) (ft : Nat) (ext fd2 td2 ts2 : String) :
    (lowerStr (extname f) = ".csv" →
      convertXmlConfig i o f fd td ts
        = convertXmlPre i o f ++ csvFields ++ xmlPost fd td ts ∧
      "<m_nCsvTxtEncoding>46</m_nCsvTxtEncoding>".toList
        <:+: (convertXmlConfig i o f fd td ts).toList ∧
      "<m_nCsvDelimiter>4</m_nCsvDelimiter>".toList
        <:+: (convertXmlConfig i o f fd td ts).toList) ∧
    (lowerStr (extname f) ≠ ".csv" →
      convertXmlConfig i o f fd td ts = convertXmlPre i o f ++ xmlPost fd td ts) ∧
    (ext = ".csv" →
      saveXmlConfig cb op fn ft ext fd2 td2 ts2
        = saveXmlPre cb op fn ft ++ csvFields ++ xmlPost fd2 td2 ts2 ∧
      "<m_nCsvTxtEncoding>46</m_nCsvTxtEncoding>".toList
        <:+: (saveXmlConfig cb op fn ft ext fd2 td2 ts2).toList ∧
      "<m_nCsvDelimiter>4</m_nCsvDelimiter>".toList
        <:+: (saveXmlConfig cb op fn ft ext fd2 td2 ts2).toList) ∧
    (ext ≠ ".csv" →
      saveXmlConfig cb op fn ft ext fd2 td2 ts2
        = saveXmlPre cb op fn ft ++ xmlPost fd2 td2 ts2) := by
  refine ⟨?_, ?_, ?_, ?_⟩
  · intro h
    have he : convertXmlConfig i o f fd td ts
        = convertXmlPre i o f ++ csvFields ++ xmlPost fd td ts := by
      simp [convertXmlConfig, h]
    refine ⟨he, ?_, ?_⟩
    · rw [he]; exact infix_of_middle _ _ _ _ encoding_infix_csvFields
    · rw [he]; exact infix_of_middle _ _ _ _ delimiter_infix_csvFields
  · intro h
    simp [convertXmlConfig, beq_eq_false_iff_ne.mpr h]
  · intro h
    have he : saveXmlConfig cb op fn ft ext fd2 td2 ts2
        = saveXmlPre cb op fn ft ++ csvFields ++ xmlPost fd2 td2 ts2 := by
      simp [saveXmlConfig, h]
    refine ⟨he, ?_, ?_⟩
    · rw [he]; exact infix_of_middle _ _ _ _ encoding_infix_csvFields
    · rw [he]; exact infix_of_middle _ _ _ _ delimiter_infix_csvFields
  · intro h
    simp [saveXmlConfig, beq_eq_false_iff_ne.mpr h]

/-- C7 witness: for the concrete source filename `a.csv` the convert
descriptor splits around the two CSV fields, and for the concrete target
extension `.txt` the save descriptor contains no CSV insertion. -/
theorem C7_witness :
    convertXmlConfig "/i" "/o" "a.csv" "/f" "/th" "T"
      = convertXmlPre "/i" "/o" "a.csv" ++ csvFields ++ xmlPost "/f" "/th" "T" ∧
    saveXmlConfig "/c" "/o" "a.txt" 65 ".txt" "/f" "/th" "T"
      = saveXmlPre "/c" "/o" "a.txt" 65 ++ xmlPost "/f" "/th" "T" :=
  ⟨((C7_csv_fields_iff "/i" "/o" "a.csv" "/f" "/th" "T" "/c" "/o" "a.txt" 65 ".txt"
      "/f" "/th" "T").1 (by decide)).1,
   (C7_csv_fields_iff "/i" "/o" "a.csv" "/f" "/th" "T" "/c" "/o" "a.txt" 65 ".txt"
      "/f" "/th" "T").2.2.2 (by decide)⟩

/-- C4: for both close handlers the result is determined by the exit code and
the on-disk artifact alone — any exit code other than zero (including the
null code of a failed spawn) is reported as the conversion failure, exit zero
with no destination artifact is reported as the distinct missing-output
failure, exit zero with the artifact present is the only success (returning
the artifact's bytes / size), the two failures are distinct responses, and
the captured stderr never changes which kind of result is produced. -/
theorem C4_exit_code_determines_result
    (fs : FS) (outP : String) (code : Option Int) (stderr s1 s2 : String) :
    (code ≠ some 0 →
      convertCloseResp fs outP code stderr
          = Outcome.response (ConvResp.convFailed stderr) ∧
      saveCloseResp fs outP code = Outcome.response SaveResp.saveConvFailed) ∧
    (code = some 0 → fs.existsPath outP = false →
      convertCloseResp fs outP code stderr = Outcome.response ConvResp.convNoOutput ∧
      saveCloseResp fs outP code = Outcome.response SaveResp.saveNoOutput) ∧
    (∀ art, code = some 0 → fs.lookup outP = some art →
      convertCloseResp fs outP code stderr
          = Outcome.response (ConvResp.converted art.content) ∧
      saveCloseResp fs outP code
          = Outcome.response (SaveResp.savedConverted outP art.content.length)) ∧
    (Outcome.response (ConvResp.convFailed stderr)
        ≠ (Outcome.response ConvResp.convNoOutput : Outcome ConvResp)) ∧
    ((Outcome.response SaveResp.saveConvFailed : Outcome SaveResp)
        ≠ Outcome.response SaveResp.saveNoOutput) ∧
    convRespClass (convertCloseResp fs outP code s1)
      = convRespClass (convertCloseResp fs outP code s2) := by
  refine ⟨?_, ?_, ?_, by simp, by simp, ?_⟩
  · intro h
    constructor <;> simp [convertCloseResp, saveCloseResp, h]
  · intro h hex
    constructor <;> simp [convertCloseResp, saveCloseResp, h, hex]
  · intro art h hart
    have hex : fs.existsPath outP = true := by simp [FS.existsPath, hart]
    constructor <;> simp [convertCloseResp, saveCloseResp, h, hex, hart]
  · by_cases h : code = some 0
    · by_cases hex : fs.existsPath outP = true
      · cases hl : fs.lookup outP <;>
          simp [convertCloseResp, h, hex, hl, convRespClass]
      · simp [convertCloseResp, h, hex, convRespClass]
    · simp [convertCloseResp, h, convRespClass]

/-- C4 witness: at exit code 1 the convert close handler reports the
conversion failure carrying stderr and the save close handler reports the
save conversion failure. -/
theorem C4_witness :
    convertCloseResp ⟨[], []⟩ "/o" (some 1) "err"
        = Outcome.response (ConvResp.convFailed "err") ∧
    saveCloseResp ⟨[], []⟩ "/o" (some 1) = Outcome.response SaveResp.saveConvFailed :=
  (C4_exit_code_determines_result ⟨[], []⟩ "/o" (some 1) "err" "a" "b").1 (by decide)

/-- Across every branch of `/api/save` (native, unsupported-format,
conversion, faults) the final directory set is exactly the one produced by
the initial parent-directory creation step. -/
theorem apiSave_dirs
    (base fontDataDir : String) (fs : FS) (p : String) (filehash? : Option String)
    (body : ByteSeq) (ct : Option String) (now : Nat) (tsNow : String)
    (outcome : ProcOutcome) (eff : Option FileData) (stderr : String)
    (habs : isAbsolutePath p = true) :
    (apiSave base fontDataDir fs (some p) filehash? body ct now tsNow outcome eff
        stderr).fs.dirs
      = (if fs.existsPath (dirname p) = true then fs
         else fs.mkdirRec (dirname p)).dirs := by
  have hne := ne_empty_of_isAbsolutePath habs
  by_cases hex : fs.existsPath (dirname p) = true <;>
    simp only [apiSave, hne, habs, hex, if_true, if_false, ite_true, ite_false,
      Bool.not_true, not_false_iff, Bool.false_eq_true] <;>
    (repeat' split) <;>
    first
      | rfl
      | simp_all [writeFile_eq_some_iff, FS.dirs_unlink, FS.dirs_applyX2t,
          FS.dirs_forceWrite, apply_ite, ite_self]

/-- C10 (implicit frame effect): for every save request with an absolute
filepath, the destination's parent directory is created before the payload is
classified, so it exists in the final filesystem for every payload, process
outcome and branch — including the UnsupportedFormat rejection and converter
failures.  (The hypothesis excludes the degenerate state where the parent
path exists as a regular file, in which case `existsSync` is true and the
handler creates nothing.) -/
theorem C10_save_creates_parent_directory
    (base fontDataDir : String) (fs : FS) (p : String) (filehash? : Option String)
    (body : ByteSeq) (ct : Option String) (now : Nat) (tsNow : String)
    (outcome : ProcOutcome) (eff : Option FileData) (stderr : String)
    (habs : isAbsolutePath p = true)
    (hpd : fs.dirs.contains (dirname p) = true ∨ fs.lookup (dirname p) = none) :
    (apiSave base fontDataDir fs (some p) filehash? body ct now tsNow outcome eff
        stderr).fs.dirs.contains (dirname p) = true := by
  rw [apiSave_dirs base fontDataDir fs p filehash? body ct now tsNow outcome eff stderr
    habs]
  by_cases hex : fs.existsPath (dirname p) = true
  · rw [if_pos hex]
    rcases hpd with h | h
    · exact h
    · simpa [FS.existsPath, h] using hex
  · rw [if_neg hex]
    exact FS.dirs_mkdirRec_mem fs (dirname p)

/-- C10 witness: saving an unsupported non-ZIP payload to `/tmp/out.zip` on
an empty filesystem fails with UnsupportedFormat, yet `/tmp` exists
afterwards. -/
theorem C10_witness :
    (apiSave "/srv" "/fonts" ⟨[], []⟩ (some "/tmp/out.zip") none [1, 2] none 3 "t"
        (ProcOutcome.exited 0) none "").fs.dirs.contains (dirname "/tmp/out.zip")
      = true :=
  C10_save_creates_parent_directory "/srv" "/fonts" ⟨[], []⟩ "/tmp/out.zip" none [1, 2]
    none 3 "t" (ProcOutcome.exited 0) none "" (by decide) (Or.inr (by decide))

theorem dirname_convParamsPath (base p : String) :
    dirname (convParamsPath base p) = convOutputDir base p :=
  dirname_joinP _ _ (joinP_ne_empty _ _) (by decide)

theorem convOutputPath_ne_convParamsPath (base p : String) :
    convOutputPath base p ≠ convParamsPath base p :=
  joinP_ne_of_length_ne _ (by decide)

theorem convertCloseResp_ne_cacheHit (fs : FS) (pth : String) (code : Option Int)
    (st : String) (b : ByteSeq) :
    convertCloseResp fs pth code st ≠ Outcome.response (ConvResp.cacheHit b) := by
  unfold convertCloseResp
  split
  · simp
  · split
    · split <;> simp
    · simp

/-- Full evaluation of the cache-hit path of `/api/convert`: when the source
exists and the artifact's mtime is strictly newer, the cached bytes are
served unchanged, the filesystem is untouched, and no process is spawned. -/
theorem apiConvert_hit_eval
    (base fontDataDir : String) (fs : FS) (p : String) (now : Nat) (tsNow : String)
    (outcome : ProcOutcome) (eff : Option FileData) (stderr : String)
    (srcFd art : FileData)
    (habs : isAbsolutePath p = true)
    (hsrc : fs.lookup p = some srcFd)
    (hart : fs.lookup (convOutputPath base p) = some art)
    (hm : srcFd.mtime < art.mtime) :
    apiConvert base fontDataDir fs (some p) now tsNow outcome eff stderr
      = ⟨fs,
         [Eff.existsCheck p, Eff.statCall p, Eff.existsCheck (convOutputPath base p),
          Eff.statCall (convOutputPath base p), Eff.readFile (convOutputPath base p)],
         Outcome.response (ConvResp.cacheHit art.content)⟩ := by
  have hne := ne_empty_of_isAbsolutePath habs
  have hex : fs.existsPath p = true := by simp [FS.existsPath, hsrc]
  have hexo : fs.existsPath (convOutputPath base p) = true := by
    simp [FS.existsPath, hart]
  simp [apiConvert, hne, habs, hex, hexo, FS.statMtime, hsrc, hart, hm]

/-- Projections of the cache-miss / stale path of `/api/convert`: the
converter is spawned, the response is never a cache hit, and on exit zero
with the artifact written by the converter the freshly written bytes are
read back and returned. -/
theorem apiConvert_miss_proj
    (base fontDataDir : String) (fs : FS) (p : String) (now : Nat) (tsNow : String)
    (outcome : ProcOutcome) (eff : Option FileData) (stderr : String)
    (srcFd : FileData)
    (habs : isAbsolutePath p = true)
    (hsrc : fs.lookup p = some srcFd)
    (hdirNoFile : fs.lookup (convOutputDir base p) = none)
    (hstale : fs.existsPath (convOutputPath base p) = false
      ∨ ∃ art, fs.lookup (convOutputPath base p) = some art
          ∧ ¬ srcFd.mtime < art.mtime) :
    Eff.spawnX2t
        ∈ (apiConvert base fontDataDir fs (some p) now tsNow outcome eff stderr).trace ∧
    (∀ b, (apiConvert base fontDataDir fs (some p) now tsNow outcome eff stderr).resp
        ≠ Outcome.response (ConvResp.cacheHit b)) ∧
    (∀ fd, outcome = ProcOutcome.exited 0 → eff = some fd →
      (apiConvert base fontDataDir fs (some p) now tsNow outcome eff stderr).resp
        = Outcome.response (ConvResp.converted fd.content)) := by
  have hne := ne_empty_of_isAbsolutePath habs
  have hex : fs.existsPath p = true := by simp [FS.existsPath, hsrc]
  have hdn : dirname (convParamsPath base p) = convOutputDir base p :=
    dirname_convParamsPath base p
  have hnep : convOutputPath base p ≠ convParamsPath base p :=
    convOutputPath_ne_convParamsPath base p
  have hstep : ∀ (fs1 : FS), fs1.dirs.contains (convOutputDir base p) = true →
      ∀ fd : FileData, fs1.writeFile (convParamsPath base p) fd
        = some (fs1.forceWrite (convParamsPath base p) fd) := by
    intro fs1 h1 fd
    have hm1 : convOutputDir base p ∈ fs1.dirs := by simpa using h1
    simp [FS.writeFile, hdn, hm1]
  have hlu : ∀ fsx : FS,
      (fsx.unlink (convParamsPath base p)).lookup (convOutputPath base p)
        = fsx.lookup (convOutputPath base p) :=
    fun fsx => FS.lookup_unlink_ne fsx hnep
  by_cases hexd : fs.existsPath (convOutputDir base p) = true <;>
    [have hwf := hstep fs (by simpa [FS.existsPath, hdirNoFile] using hexd);
     have hwf := hstep (fs.mkdirRec (convOutputDir base p))
       (FS.dirs_mkdirRec_mem fs (convOutputDir base p))] <;>
  · simp [FS.existsPath, hdirNoFile] at hexd
    rcases hstale with hA | ⟨art, hart, hm⟩
    · have hA2 : fs.lookup (convOutputPath base p) = none
          ∧ convOutputPath base p ∉ fs.dirs := by
        simpa [FS.existsPath] using hA
      cases outcome with
      | spawnError =>
        refine ⟨?_, ?_, fun fd h1 h2 => by cases h1⟩ <;>
          simp [apiConvert, hne, habs, FS.existsPath, FS.statMtime, hsrc, hdirNoFile,
            hexd, hA2.1, hA2.2, hwf, closeCode, convertHasErrorListener,
            convertCloseResp_ne_cacheHit]
      | exited c =>
        refine ⟨?_, ?_, ?_⟩
        · simp [apiConvert, hne, habs, FS.existsPath, FS.statMtime, hsrc, hdirNoFile,
            hexd, hA2.1, hA2.2, hwf, closeCode, convertHasErrorListener]
        · simp [apiConvert, hne, habs, FS.existsPath, FS.statMtime, hsrc, hdirNoFile,
            hexd, hA2.1, hA2.2, hwf, closeCode, convertHasErrorListener,
            convertCloseResp_ne_cacheHit]
        · intro fd h1 h2
          have hc : c = 0 := by injection h1
          subst hc
          subst h2
          simp [apiConvert, hne, habs, FS.existsPath, FS.statMtime, hsrc, hdirNoFile,
            hexd, hA2.1, hA2.2, hwf, closeCode, convertHasErrorListener, applyX2t,
            convertCloseResp, hlu, FS.lookup_forceWrite_self]
    · cases outcome with
      | spawnError =>
        refine ⟨?_, ?_, fun fd h1 h2 => by cases h1⟩ <;>
          simp [apiConvert, hne, habs, FS.existsPath, FS.statMtime, hsrc, hdirNoFile,
            hexd, hart, hm, hwf, closeCode, convertHasErrorListener,
            convertCloseResp_ne_cacheHit]
      | exited c =>
        refine ⟨?_, ?_, ?_⟩
        · simp [apiConvert, hne, habs, FS.existsPath, FS.statMtime, hsrc, hdirNoFile,
            hexd, hart, hm, hwf, closeCode, convertHasErrorListener]
        · simp [apiConvert, hne, habs, FS.existsPath, FS.statMtime, hsrc, hdirNoFile,
            hexd, hart, hm, hwf, closeCode, convertHasErrorListener,
            convertCloseResp_ne_cacheHit]
        · intro fd h1 h2
          have hc : c = 0 := by injection h1
          subst hc
          subst h2
          simp [apiConvert, hne, habs, FS.existsPath, FS.statMtime, hsrc, hdirNoFile,
            hexd, hart, hm, hwf, closeCode, convertHasErrorListener, applyX2t,
            convertCloseResp, hlu, FS.lookup_forceWrite_self]

/-- C1: for every convert request on an existing absolute source path, the
cached artifact at `workingDirectory/Editor.bin` is served — bytes returned
unchanged, filesystem untouched, converter not invoked — if and only if the
artifact exists and its modification time is strictly greater than the
source's at the moment of the check; in every other case (no artifact, or
artifact mtime equal to or older) the converter is invoked, and when it
exits zero having written the artifact, the freshly written bytes are read
back and returned. -/
theorem C1_convert_cache_validity
    (base fontDataDir : String) (fs : FS) (p : String) (now : Nat) (tsNow : String)
    (outcome : ProcOutcome) (eff : Option FileData) (stderr : String) (srcFd : FileData)
    (habs : isAbsolutePath p = true)
    (hsrc : fs.lookup p = some srcFd)
    (hdirNoFile : fs.lookup (convOutputDir base p) = none) :
    ((∃ b, (apiConvert base fontDataDir fs (some p) now tsNow outcome eff stderr).resp
        = Outcome.response (ConvResp.cacheHit b))
      ↔ ∃ art, fs.lookup (convOutputPath base p) = some art
          ∧ srcFd.mtime < art.mtime) ∧
    (∀ art, fs.lookup (convOutputPath base p) = some art → srcFd.mtime < art.mtime →
      (apiConvert base fontDataDir fs (some p) now tsNow outcome eff stderr).resp
          = Outcome.response (ConvResp.cacheHit art.content) ∧
      (apiConvert base fontDataDir fs (some p) now tsNow outcome eff stderr).fs = fs ∧
      Eff.spawnX2t ∉
        (apiConvert base fontDataDir fs (some p) now tsNow outcome eff stderr).trace) ∧
    ((fs.existsPath (convOutputPath base p) = false
        ∨ ∃ art, fs.lookup (convOutputPath base p) = some art
            ∧ ¬ srcFd.mtime < art.mtime) →
      Eff.spawnX2t
        ∈ (apiConvert base fontDataDir fs (some p) now tsNow outcome eff stderr).trace) ∧
    (∀ fd, (fs.existsPath (convOutputPath base p) = false
        ∨ ∃ art, fs.lookup (convOutputPath base p) = some art
            ∧ ¬ srcFd.mtime < art.mtime) →
      outcome = ProcOutcome.exited 0 → eff = some fd →
      (apiConvert base fontDataDir fs (some p) now tsNow outcome eff stderr).resp
        = Outcome.response (ConvResp.converted fd.content)) := by
  refine ⟨⟨?_, ?_⟩, ?_, ?_, ?_⟩
  · rintro ⟨b, hb⟩
    by_cases hexo : fs.existsPath (convOutputPath base p) = true
    · cases hl : fs.lookup (convOutputPath base p) with
      | some art =>
        by_cases hm : srcFd.mtime < art.mtime
        · exact ⟨art, hl ▸ rfl, hm⟩
        · exact absurd hb ((apiConvert_miss_proj base fontDataDir fs p now tsNow outcome
            eff stderr srcFd habs hsrc hdirNoFile (Or.inr ⟨art, hl, hm⟩)).2.1 b)
      | none =>
        exfalso
        have hne := ne_empty_of_isAbsolutePath habs
        have hex : fs.existsPath p = true := by simp [FS.existsPath, hsrc]
        have hf : (apiConvert base fontDataDir fs (some p) now tsNow outcome eff
            stderr).resp = Outcome.fault "EISDIR: statSync on a directory" := by
          simp [apiConvert, hne, habs, hex, FS.statMtime, hsrc, hexo, hl]
        rw [hf] at hb
        cases hb
    · exact absurd hb ((apiConvert_miss_proj base fontDataDir fs p now tsNow outcome
        eff stderr srcFd habs hsrc hdirNoFile (Or.inl (by simpa using hexo))).2.1 b)
  · rintro ⟨art, hl, hm⟩
    exact ⟨art.content, by
      rw [apiConvert_hit_eval base fontDataDir fs p now tsNow outcome eff stderr srcFd
        art habs hsrc hl hm]⟩
  · intro art hl hm
    rw [apiConvert_hit_eval base fontDataDir fs p now tsNow outcome eff stderr srcFd
      art habs hsrc hl hm]
    refine ⟨rfl, rfl, ?_⟩
    simp
  · intro hs
    exact (apiConvert_miss_proj base fontDataDir fs p now tsNow outcome eff stderr
      srcFd habs hsrc hdirNoFile hs).1
  · intro fd hs h1 h2
    exact (apiConvert_miss_proj base fontDataDir fs p now tsNow outcome eff stderr
      srcFd habs hsrc hdirNoFile hs).2.2 fd h1 h2

/-- C1 witness: with a source file of mtime 10 and a cached artifact of
mtime 11 and bytes `[9, 9]`, the convert request serves the cached bytes. -/
theorem C1_witness :
    (apiConvert "/srv" "/fonts"
        ⟨["/data"], [("/data/in.xlsx", ⟨[7], 10⟩),
          (convOutputPath "/srv" "/data/in.xlsx", ⟨[9, 9], 11⟩)]⟩
        (some "/data/in.xlsx") 5 "t" (ProcOutcome.exited 0) none "").resp
      = Outcome.response (ConvResp.cacheHit [9, 9]) :=
  ((C1_convert_cache_validity "/srv" "/fonts"
      ⟨["/data"], [("/data/in.xlsx", ⟨[7], 10⟩),
        (convOutputPath "/srv" "/data/in.xlsx", ⟨[9, 9], 11⟩)]⟩
      "/data/in.xlsx" 5 "t" (ProcOutcome.exited 0) none "" ⟨[7], 10⟩
      (by decide) (by decide) (by decide)).2.1 ⟨[9, 9], 11⟩ (by decide) (by decide)).1

/-- C3 (code bug): cleanup does NOT happen on every exit path.  The save path
deletes both `params_save.xml` and `temp_changes.bin` on success, on non-zero
exit and on spawn error (its `'error'` listener lets `'close'` run), and the
convert path deletes `params_temp.xml` on success and non-zero exit — but
the convert path registers no `'error'` listener, so when the converter
cannot be spawned the `'error'` event is an uncaught exception, the
`'close'` callback never runs, and the freshly written `params_temp.xml`
remains on disk. -/
theorem C3_cleanup_on_exit_paths :
    -- failing input: GET /api/convert on /data/in.xlsx when x2t cannot spawn
    ((apiConvert "/srv" "/fonts" ⟨["/data"], [("/data/in.xlsx", ⟨[7], 10⟩)]⟩
        (some "/data/in.xlsx") 5 "t" ProcOutcome.spawnError none "").resp
      = Outcome.fault "unhandled error event on x2t spawn failure" ∧
     ((apiConvert "/srv" "/fonts" ⟨["/data"], [("/data/in.xlsx", ⟨[7], 10⟩)]⟩
        (some "/data/in.xlsx") 5 "t" ProcOutcome.spawnError none "").fs).existsPath
        (convParamsPath "/srv" "/data/in.xlsx") = true) ∧
    -- the convert path does clean up on success and on non-zero exit
    (((apiConvert "/srv" "/fonts" ⟨["/data"], [("/data/in.xlsx", ⟨[7], 10⟩)]⟩
        (some "/data/in.xlsx") 5 "t" (ProcOutcome.exited 0) (some ⟨[1], 12⟩) "").fs).lookup
        (convParamsPath "/srv" "/data/in.xlsx") = none ∧
     ((apiConvert "/srv" "/fonts" ⟨["/data"], [("/data/in.xlsx", ⟨[7], 10⟩)]⟩
        (some "/data/in.xlsx") 5 "t" (ProcOutcome.exited 1) none "boom").fs).lookup
        (convParamsPath "/srv" "/data/in.xlsx") = none) ∧
    -- the save path cleans up in all three cases, spawn error included
    (((apiSave "/srv" "/fonts" ⟨["/tmp", "/srv/test/output/h"], []⟩ (some "/tmp/out.csv")
        (some "h") [1, 2] none 3 "t" (ProcOutcome.exited 0) (some ⟨[5], 9⟩) "").fs).lookup
        "/srv/test/output/h/params_save.xml" = none ∧
     ((apiSave "/srv" "/fonts" ⟨["/tmp", "/srv/test/output/h"], []⟩ (some "/tmp/out.csv")
        (some "h") [1, 2] none 3 "t" (ProcOutcome.exited 0) (some ⟨[5], 9⟩) "").fs).lookup
        "/srv/test/output/h/temp_changes.bin" = none ∧
     ((apiSave "/srv" "/fonts" ⟨["/tmp", "/srv/test/output/h"], []⟩ (some "/tmp/out.csv")
        (some "h") [1, 2] none 3 "t" (ProcOutcome.exited 1) none "boom").fs).lookup
        "/srv/test/output/h/params_save.xml" = none ∧
     ((apiSave "/srv" "/fonts" ⟨["/tmp", "/srv/test/output/h"], []⟩ (some "/tmp/out.csv")
        (some "h") [1, 2] none 3 "t" (ProcOutcome.exited 1) none "boom").fs).lookup
        "/srv/test/output/h/temp_changes.bin" = none ∧
     ((apiSave "/srv" "/fonts" ⟨["/tmp", "/srv/test/output/h"], []⟩ (some "/tmp/out.csv")
        (some "h") [1, 2] none 3 "t" ProcOutcome.spawnError none "").fs).lookup
        "/srv/test/output/h/params_save.xml" = none ∧
     ((apiSave "/srv" "/fonts" ⟨["/tmp", "/srv/test/output/h"], []⟩ (some "/tmp/out.csv")
        (some "h") [1, 2] none 3 "t" ProcOutcome.spawnError none "").fs).lookup
        "/srv/test/output/h/temp_changes.bin" = none) ∧
    -- the root cause, straight from the handlers' listener registrations
    convertHasErrorListener = false ∧ saveHasErrorListener = true := by
  decide

/-- C9 (code bug): filesystem and process errors can escape the handlers as
unhandled faults.  On the save conversion branch, writing the temporary
binary into a fingerprint directory that does not exist makes `writeFileSync`
throw outside any try/catch, so the error escapes the handler instead of
being translated into the declared taxonomy; on the convert path a spawn
failure is an `'error'` event with no registered listener — an uncaught
exception. -/
theorem C9_errors_escape_as_unhandled_faults :
    -- failing input: POST /api/save, non-ZIP body, filehash "h" whose
    -- directory /srv/test/output/h does not exist
    (apiSave "/srv" "/fonts" ⟨["/tmp"], []⟩ (some "/tmp/out.csv") (some "h") [1, 2] none
        3 "t" (ProcOutcome.exited 0) none "").resp
      = Outcome.fault "ENOENT: writeFileSync temp_changes.bin" ∧
    -- failing input: GET /api/convert when x2t cannot be spawned
    (apiConvert "/srv" "/fonts" ⟨["/data"], [("/data/in2.xlsx", ⟨[7], 10⟩)]⟩
        (some "/data/in2.xlsx") 5 "t" ProcOutcome.spawnError none "").resp
      = Outcome.fault "unhandled error event on x2t spawn failure" ∧
    convertHasErrorListener = false := by
  decide

/-- C5 witness: the relative path `"rel.csv"` is rejected with InvalidPath,
leaving the filesystem untouched and the effect trace empty. -/
theorem C5_witness :
    apiSave "/srv" "/fonts" ⟨["/tmp"], []⟩ (some "rel.csv") none [1] none 3 "t"
        (ProcOutcome.exited 0) none ""
      = ⟨⟨["/tmp"], []⟩, [], none, Outcome.response SaveResp.invalidPath⟩ :=
  C5_save_relative_path_rejected_before_effects "/srv" "/fonts" ⟨["/tmp"], []⟩
    "rel.csv" none [1] none 3 "t" (ProcOutcome.exited 0) none ""
    (by decide) (by decide)

end OOEditors
